import Mathlib

/-!
Verification of the compute-attest-submit pipeline of the
`parallel-exec-eigenlayer` blueprint (Rust sources under `src/`):
the API client reduction (`api_client.rs`), the task job
(`jobs/compute_x_square.rs`: `calculate_task`, `operator_id_from_key`,
`convert_event_to_inputs`).  Machine integers are modelled as `Nat` with
explicit `% 2 ^ w` where overflow matters; fallible collaborator calls are
modelled as `Except` values recorded in an environment; a Rust panic is a
distinct outcome constructor.
-/

set_option maxRecDepth 4000
set_option linter.unusedVariables false

namespace ParallelExec

/-! ### Keccak-256 (as used via `alloy_primitives::keccak256`)

Lanes are 64-bit words modelled as `Nat` kept below `2 ^ 64`; the state is a
flat list of 25 lanes, index `i = x + 5 * y`. -/

def mask64 : Nat := 2 ^ 64 - 1

def rotl64 (v n : Nat) : Nat :=
  ((v <<< n) ||| (v >>> (64 - n))) % 2 ^ 64

/-- Round constants of Keccak-f[1600]. -/
def keccakRC : List Nat :=
  [0x0000000000000001, 0x0000000000008082, 0x800000000000808a, 0x8000000080008000,
   0x000000000000808b, 0x0000000080000001, 0x8000000080008081, 0x8000000000008009,
   0x000000000000008a, 0x0000000000000088, 0x0000000080008009, 0x000000008000000a,
   0x000000008000808b, 0x800000000000008b, 0x8000000000008089, 0x8000000000008003,
   0x8000000000008002, 0x8000000000000080, 0x000000000000800a, 0x800000008000000a,
   0x8000000080008081, 0x8000000000008080, 0x0000000080000001, 0x8000000080008008]

/-- For target index `j` of the π step, the flat source index it reads. -/
def piSrc : List Nat :=
  [0, 6, 12, 18, 24, 3, 9, 10, 16, 22, 1, 7, 13, 19, 20, 4, 5, 11, 17, 23, 2, 8, 14, 15, 21]

/-- For target index `j` of the π step, the ρ rotation applied to its source lane. -/
def rhoRot : List Nat :=
  [0, 44, 43, 21, 14, 28, 20, 3, 45, 61, 1, 6, 25, 8, 18, 27, 36, 10, 15, 56, 62, 55, 39, 41, 2]

def theta (A : List Nat) : List Nat :=
  let C := (List.range 5).map fun x =>
    A.getD x 0 ^^^ A.getD (x + 5) 0 ^^^ A.getD (x + 10) 0 ^^^ A.getD (x + 15) 0 ^^^
      A.getD (x + 20) 0
  let D := (List.range 5).map fun x =>
    C.getD ((x + 4) % 5) 0 ^^^ rotl64 (C.getD ((x + 1) % 5) 0) 1
  (List.range 25).map fun i => A.getD i 0 ^^^ D.getD (i % 5) 0

def rhoPi (A : List Nat) : List Nat :=
  (List.range 25).map fun j => rotl64 (A.getD (piSrc.getD j 0) 0) (rhoRot.getD j 0)

def chi (B : List Nat) : List Nat :=
  (List.range 25).map fun i =>
    B.getD i 0 ^^^
      ((B.getD ((i % 5 + 1) % 5 + 5 * (i / 5)) 0 ^^^ mask64) &&&
        B.getD ((i % 5 + 2) % 5 + 5 * (i / 5)) 0)

def iota (rc : Nat) (A : List Nat) : List Nat :=
  A.set 0 (A.getD 0 0 ^^^ rc)

def keccakRound (A : List Nat) (rc : Nat) : List Nat :=
  iota rc (chi (rhoPi (theta A)))

def keccakF (A : List Nat) : List Nat :=
  keccakRC.foldl keccakRound A

/-- Interpret (up to) eight bytes as one little-endian 64-bit lane. -/
def leLane (bs : List Nat) : Nat :=
  bs.foldr (fun b acc => b + 256 * acc) 0

/-- Split one 136-byte rate block into its 17 lanes. -/
def blockLanes (block : List Nat) : List Nat :=
  (List.range 17).map fun i => leLane ((block.drop (8 * i)).take 8)

def absorbBlock (A block : List Nat) : List Nat :=
  let lanes := blockLanes block
  keccakF ((List.range 25).map fun i => A.getD i 0 ^^^ lanes.getD i 0)

def laneToBytes (l : Nat) : List Nat :=
  (List.range 8).map fun i => (l >>> (8 * i)) % 256

def squeeze (A : List Nat) : List Nat :=
  ((A.take 4).map laneToBytes).flatten

/-- Keccak (pre-SHA-3) multi-rate padding for rate 136 bytes: `0x01 … 0x80`,
collapsing to the single byte `0x81` when only one pad byte fits. -/
def padSuffix (len : Nat) : List Nat :=
  let r := 136 - len % 136
  if r = 1 then [0x81] else 0x01 :: (List.replicate (r - 2) 0 ++ [0x80])

/-- Keccak-256 of a byte string (bytes as `Nat` below 256), as computed by
`alloy_primitives::keccak256`; returns the 32 digest bytes. -/
def keccak256 (msg : List Nat) : List Nat :=
  let padded := msg ++ padSuffix msg.length
  let blocks := (List.range (padded.length / 136)).map fun i =>
    (padded.drop (136 * i)).take 136
  squeeze (blocks.foldl absorbBlock (List.replicate 25 0))

/-! ### UTF-8 byte strings (Rust `str::as_bytes`) -/

/-- UTF-8 encoding of one Unicode code point. -/
def utf8Encode (c : Nat) : List Nat :=
  if c < 0x80 then [c]
  else if c < 0x800 then
    [0xC0 ||| (c >>> 6), 0x80 ||| (c &&& 0x3F)]
  else if c < 0x10000 then
    [0xE0 ||| (c >>> 12), 0x80 ||| ((c >>> 6) &&& 0x3F), 0x80 ||| (c &&& 0x3F)]
  else
    [0xF0 ||| (c >>> 18), 0x80 ||| ((c >>> 12) &&& 0x3F),
     0x80 ||| ((c >>> 6) &&& 0x3F), 0x80 ||| (c &&& 0x3F)]

/-- The UTF-8 bytes of a string, i.e. Rust `s.as_bytes()`. -/
def strBytes (s : String) : List Nat :=
  (s.data.map fun c => utf8Encode c.toNat).flatten

/-! ### Data model of `api_client.rs` -/

/-- One record of the `data` array of the API envelope (`struct Block`). -/
structure Block where
  hash : String
  number : String
  timestamp : String
  transactions_root : String
  parent_hash : String

/-- The typed envelope the body is deserialized into (`struct ApiResponse`). -/
structure ApiResponse where
  status : String
  message : String
  data : List Block

/-- Error value of the `reqwest` client: `network` stands for the errors
`send()` can produce (connection failure, timeout); `decode` for the error
`json()` produces when the body does not deserialize as the envelope. -/
inductive ReqwestError where
  | network : ReqwestError
  | decode : ReqwestError
deriving DecidableEq

/-- What the HTTP layer handed back when `send()` succeeded: `reqwest` returns
`Ok` for every response actually received, whatever its status code, so the
received status is carried here, and `body` is the outcome of deserializing
the body as `ApiResponse` (`some` iff deserialization succeeds). -/
structure HttpResponse where
  status : Nat
  body : Option ApiResponse

/-- `ApiClient::get_calculation` (api_client.rs lines 38–64), with the network
send outcome as input: `send().await?` propagates the send error, `.json().await?`
fails iff the body does not parse (the status code is never consulted), and the
reduction keccak-hashes the concatenation of the `hash` fields in order. -/
def get_calculation (sendResult : Except ReqwestError HttpResponse) :
    Except ReqwestError (List Nat) :=
  match sendResult with
  | .error e => .error e
  | .ok response =>
    match response.body with
    | none => .error .decode
    | some parsed =>
      let combined := String.join (parsed.data.map fun block => block.hash)
      .ok (keccak256 (strBytes combined))

/-! ### `operator_id_from_key` (compute_x_square.rs lines 105–116) -/

/-- Affine G1 point: the two BN254 base-field coordinates, as the naturals the
source converts them to (`num_bigint::BigUint`). -/
structure G1Affine where
  x : Nat
  y : Nat

/-- The BLS public key, exposing its G1 affine point as `pub_key.g1()` does. -/
structure BlsPublicKey where
  g1 : G1Affine

/-- A BLS key pair as far as this core reads it: `key.public_key()`. -/
structure BlsKeyPair where
  public_key : BlsPublicKey

/-- `num_bigint::BigUint::to_bytes_be`: big-endian bytes with no leading zero
byte, except that zero is encoded as the single byte `0`. -/
def to_bytes_be (n : Nat) : List Nat :=
  if n = 0 then [0] else (Nat.digits 256 n).reverse

/-- `operator_id_from_key`: keccak of the concatenated big-endian byte
representations of the public key's affine coordinates. -/
def operator_id_from_key (key : BlsKeyPair) : List Nat :=
  let pub_key := key.public_key
  let pub_key_affine := pub_key.g1
  let x_int := pub_key_affine.x
  let y_int := pub_key_affine.y
  let x_bytes := to_bytes_be x_int
  let y_bytes := to_bytes_be y_int
  keccak256 (x_bytes ++ y_bytes)

/-! ### `calculate_task` (compute_x_square.rs lines 41–102) -/

/-- `TaskResponse { referenceTaskIndex: u32, resultHash: B256 }`: the index is
a `u32` (kept below `2 ^ 32` by reduction where encoded), the hash 32 bytes. -/
structure TaskResponse where
  referenceTaskIndex : Nat
  resultHash : List Nat

/-- Big-endian fixed-width byte encoding (`n` bytes) of a natural. -/
def beBytes (n v : Nat) : List Nat :=
  (List.range n).map fun i => (v >>> (8 * (n - 1 - i))) % 256

/-- Models `<TaskResponse as SolType>::abi_encode` from `alloy_sol_types` for
this struct of static fields `(uint32 referenceTaskIndex, bytes32 resultHash)`:
standard Solidity ABI encoding, one left-zero-padded 32-byte big-endian word
for the `uint32` followed by the 32 bytes of the `bytes32`. -/
def taskResponseAbiEncode (t : TaskResponse) : List Nat :=
  beBytes 32 (t.referenceTaskIndex % 2 ^ 32) ++ t.resultHash

/-- The message hash signed at compute_x_square.rs line 85:
`keccak256(<TaskResponse as SolType>::abi_encode(&task_response))`. -/
def msg_hash_of (t : TaskResponse) : List Nat :=
  keccak256 (taskResponseAbiEncode t)

inductive KeystoreError where
  | err : KeystoreError
deriving DecidableEq

/-- Opaque handle for the registered BN254 public key `first_local` returns. -/
structure ArkBlsBn254Public where
  handle : Nat

/-- Secret key material exposed by the keystore; the source only turns it into
a string for `BlsKeyPair::new`. -/
structure ArkBlsBn254Secret where
  repr : String

inductive KeyPairError where
  | err : KeyPairError
deriving DecidableEq

inductive SubmissionError where
  | err : SubmissionError
deriving DecidableEq

/-- Outcome of running a Rust function that can panic: it either returns a
value or the thread panics (e.g. `.unwrap()` on an `Err`). -/
inductive RustOutcome (α : Type) where
  | returns : α → RustOutcome α
  | panics : RustOutcome α
deriving DecidableEq

/-- `std::convert::Infallible`: an empty type, so the `Err` side of the job's
`Result<u32, Infallible>` can never be produced. -/
inductive Infallible where
deriving DecidableEq

/-- The outcomes of the collaborator calls one run of `calculate_task`
performs, in program order: the HTTP send inside `get_calculation`, the
keystore's `first_local`, its `expose_bls_bn254_secret`, the construction
`BlsKeyPair::new`, and the aggregator client's `send_signed_task_response`. -/
structure JobEnv where
  sendResult : Except ReqwestError HttpResponse
  first_local : Except KeystoreError ArkBlsBn254Public
  expose_bls_bn254_secret : Except KeystoreError (Option ArkBlsBn254Secret)
  new_key_pair : Except KeyPairError BlsKeyPair
  send_signed_task_response : Except SubmissionError Unit

/-- `calculate_task`: fetch the commitment (error → `Ok(0)`), build the
response, `first_local().unwrap()` (error → panic), expose the secret
(error or `None` → `Ok(0)`), build the key pair (error → `Ok(0)`), derive
the operator id, hash and sign the ABI-encoded response, submit
(error → `Ok(0)`), else `Ok(1)`. -/
def calculate_task (env : JobEnv) (task_created_block : Nat)
    (quorum_numbers : List Nat) (quorum_threshold_percentage : Nat)
    (task_index : Nat) : RustOutcome (Except Infallible Nat) :=
  match get_calculation env.sendResult with
  | .error _ => .returns (.ok 0)
  | .ok result_hash =>
    let task_response : TaskResponse :=
      { referenceTaskIndex := task_index, resultHash := result_hash }
    match env.first_local with
    | .error _ => .panics
    | .ok _bn254_public =>
      match env.expose_bls_bn254_secret with
      | .error _ => .returns (.ok 0)
      | .ok none => .returns (.ok 0)
      | .ok (some _bn254_secret) =>
        match env.new_key_pair with
        | .error _ => .returns (.ok 0)
        | .ok bls_key_pair =>
          let _operator_id := operator_id_from_key bls_key_pair
          let _msg_hash := msg_hash_of task_response
          match env.send_signed_task_response with
          | .error _ => .returns (.ok 0)
          | .ok _ => .returns (.ok 1)

/-! ### `convert_event_to_inputs` (compute_x_square.rs lines 123–139) -/

/-- The on-chain `Task` struct as the event carries it; the quorum threshold
percentage arrives as a wider integer (`u32` in the generated bindings). -/
structure Task where
  taskCreatedBlock : Nat
  quorumNumbers : List Nat
  quorumThresholdPercentage : Nat

/-- The `NewTaskCreated` event payload. -/
structure NewTaskCreated where
  taskIndex : Nat
  task : Task

inductive ProcessorError where
  | err : ProcessorError
deriving DecidableEq

/-- `convert_event_to_inputs`: passes the fields through unchanged, except
that `quorumThresholdPercentage.try_into().unwrap()` into `u8` panics when
the value exceeds `u8::MAX`. -/
def convert_event_to_inputs (event : NewTaskCreated) :
    RustOutcome (Except ProcessorError (Option (Nat × List Nat × Nat × Nat))) :=
  let task_index := event.taskIndex
  let task_created_block := event.task.taskCreatedBlock
  let quorum_numbers := event.task.quorumNumbers
  if event.task.quorumThresholdPercentage ≤ 255 then
    .returns (.ok (some (task_created_block, quorum_numbers,
      event.task.quorumThresholdPercentage, task_index)))
  else
    .panics

deriving instance DecidableEq for Except

/-! ### Helper lemmas -/

/-- Validation of the embedding against the published Keccak-256 test vector
for the empty message. -/
theorem keccak256_nil_vector :
    keccak256 [] =
      [0xc5, 0xd2, 0x46, 0x01, 0x86, 0xf7, 0x23, 0x3c, 0x92, 0x7e, 0x7d, 0xb2,
       0xdc, 0xc7, 0x03, 0xc0, 0xe5, 0x00, 0xb6, 0x53, 0xca, 0x82, 0x27, 0x3b,
       0x7b, 0xfa, 0xd8, 0x04, 0x5d, 0x85, 0xa4, 0x70] := by
  decide

theorem chi_length (B : List Nat) : (chi B).length = 25 := by
  simp [chi]

theorem keccakRound_length (A : List Nat) (rc : Nat) :
    (keccakRound A rc).length = 25 := by
  simp [keccakRound, iota, chi_length]

theorem foldl_keccakRound_length (l : List Nat) (A : List Nat)
    (hA : A.length = 25) : (l.foldl keccakRound A).length = 25 := by
  induction l generalizing A with
  | nil => simpa using hA
  | cons c l ih => exact ih _ (keccakRound_length A c)

theorem keccakF_length (A : List Nat) (hA : A.length = 25) :
    (keccakF A).length = 25 :=
  foldl_keccakRound_length _ _ hA

theorem absorbBlock_length (A block : List Nat) :
    (absorbBlock A block).length = 25 := by
  unfold absorbBlock
  exact keccakF_length _ (by simp)

theorem foldl_absorbBlock_length (blocks : List (List Nat)) (A : List Nat)
    (hA : A.length = 25) : (blocks.foldl absorbBlock A).length = 25 := by
  induction blocks generalizing A with
  | nil => simpa using hA
  | cons b blocks ih => exact ih _ (absorbBlock_length A b)

theorem laneToBytes_length (l : Nat) : (laneToBytes l).length = 8 := by
  simp [laneToBytes]

theorem squeeze_length (A : List Nat) (hA : A.length = 25) :
    (squeeze A).length = 32 := by
  simp [squeeze, List.length_flatten, List.map_map, Function.comp,
    laneToBytes_length, List.length_take, hA]

/-- The digest produced by the Keccak-256 embedding is always 32 bytes. -/
theorem keccak256_length (msg : List Nat) : (keccak256 msg).length = 32 := by
  unfold keccak256
  exact squeeze_length _ (foldl_absorbBlock_length _ _ (by simp))

theorem strBytes_append (s t : String) :
    strBytes (s ++ t) = strBytes s ++ strBytes t := by
  simp [strBytes, String.data_append]

theorem strBytes_foldl (L : List String) (acc : String) :
    strBytes (L.foldl (fun r s => r ++ s) acc) =
      strBytes acc ++ (L.map strBytes).flatten := by
  induction L generalizing acc with
  | nil => simp
  | cons s L ih => simp [ih, strBytes_append]

theorem strBytes_empty : strBytes "" = [] := rfl

theorem strBytes_join (L : List String) :
    strBytes (String.join L) = (L.map strBytes).flatten := by
  have h := strBytes_foldl L ""
  simpa [String.join, strBytes_empty] using h

/-! ### Claim theorems -/

/-- C1: on every successfully parsed response, `get_calculation` returns the
Keccak-256 digest of the byte string obtained by concatenating, in the
server-returned order and with no separator, each record's `hash` string; and
for a fixed ordered record list the resulting commitment is reproducible. -/
theorem get_calculation_concat_keccak (hs : Nat) (r : ApiResponse) :
    get_calculation (.ok ⟨hs, some r⟩) =
      .ok (keccak256 ((r.data.map fun b => strBytes b.hash).flatten)) ∧
    ∀ hs2 r2, r2.data = r.data →
      get_calculation (.ok ⟨hs2, some r2⟩) = get_calculation (.ok ⟨hs, some r⟩) := by
  constructor
  · simp [get_calculation, strBytes_join, List.map_map, Function.comp_def]
  · intro hs2 r2 hdata
    simp [get_calculation, hdata]

/-- Witness for C1 at a concrete one-record response, with a second response
sharing the record list but a different status code. -/
theorem get_calculation_concat_keccak_witness :
    get_calculation (.ok ⟨200, some ⟨"ok", "m", [⟨"0xaa", "1", "2", "3", "4"⟩]⟩⟩) =
      .ok (keccak256 ((([⟨"0xaa", "1", "2", "3", "4"⟩] : List Block).map
        fun b => strBytes b.hash).flatten)) ∧
    get_calculation (.ok ⟨500, some ⟨"ok", "m", [⟨"0xaa", "1", "2", "3", "4"⟩]⟩⟩) =
      get_calculation (.ok ⟨200, some ⟨"ok", "m", [⟨"0xaa", "1", "2", "3", "4"⟩]⟩⟩) :=
  ⟨(get_calculation_concat_keccak 200 ⟨"ok", "m", [⟨"0xaa", "1", "2", "3", "4"⟩]⟩).1,
   (get_calculation_concat_keccak 200 ⟨"ok", "m", [⟨"0xaa", "1", "2", "3", "4"⟩]⟩).2
     500 ⟨"ok", "m", [⟨"0xaa", "1", "2", "3", "4"⟩]⟩ rfl⟩

/-- C5 (counterexample): a response with the non-2xx status 500 whose body
parses as the envelope makes `get_calculation` return a successful
`CommitmentHash` computed from that body, instead of a network error. -/
theorem get_calculation_non2xx_success :
    get_calculation (.ok ⟨500, some ⟨"error", "Internal Server Error", []⟩⟩) =
      .ok (keccak256 []) ∧ ¬(200 ≤ 500 ∧ 500 ≤ 299) :=
  ⟨rfl, by decide⟩

/-- C5 (amended): `get_calculation` never inspects the HTTP status code: a
network-send failure propagates as that error, a body that does not parse as
the envelope yields the decode error, and every response with a parseable
body — whatever its status code — yields the successful commitment. -/
theorem get_calculation_status_ignored :
    (∀ e, get_calculation (.error e) = .error e) ∧
    (∀ hs, get_calculation (.ok ⟨hs, none⟩) = .error .decode) ∧
    (∀ hs r, get_calculation (.ok ⟨hs, some r⟩) =
      .ok (keccak256 (strBytes (String.join (r.data.map fun b => b.hash))))) :=
  ⟨fun _ => rfl, fun _ => rfl, fun _ _ => rfl⟩

/-- C7: with records whose `hash` fields are `"0xaa"`, `"0xbb"` in that order
the commitment is `keccak256("0xaa0xbb")`, and presenting the same two records
in the reversed order yields a different commitment. -/
theorem get_calculation_order_sensitive :
    get_calculation (.ok ⟨200, some ⟨"success", "ok",
        [⟨"0xaa", "1", "10", "t1", "p1"⟩, ⟨"0xbb", "2", "11", "t2", "p2"⟩]⟩⟩) =
      .ok (keccak256 (strBytes "0xaa0xbb")) ∧
    get_calculation (.ok ⟨200, some ⟨"success", "ok",
        [⟨"0xbb", "2", "11", "t2", "p2"⟩, ⟨"0xaa", "1", "10", "t1", "p1"⟩]⟩⟩) ≠
      get_calculation (.ok ⟨200, some ⟨"success", "ok",
        [⟨"0xaa", "1", "10", "t1", "p1"⟩, ⟨"0xbb", "2", "11", "t2", "p2"⟩]⟩⟩) := by
  constructor
  · rfl
  · decide

/-- C8: an empty `data` list makes `get_calculation` succeed with the
Keccak-256 digest of the empty byte string, not an error. -/
theorem get_calculation_empty_data (hs : Nat) (st msg : String) :
    get_calculation (.ok ⟨hs, some ⟨st, msg, []⟩⟩) = .ok (keccak256 []) := rfl

/-- C9: two parsed responses whose record lists carry identical `hash`
sequences produce identical commitments, whatever the HTTP status code, the
envelope's `status` and `message`, and the records' other fields; and the
reduction always succeeds on a parsed response. -/
theorem get_calculation_noninterference (hs1 hs2 : Nat) (r1 r2 : ApiResponse)
    (hhash : r1.data.map Block.hash = r2.data.map Block.hash) :
    get_calculation (.ok ⟨hs1, some r1⟩) = get_calculation (.ok ⟨hs2, some r2⟩) ∧
    ∃ out, get_calculation (.ok ⟨hs1, some r1⟩) = .ok out := by
  constructor
  · have : r1.data.map (fun b => b.hash) = r2.data.map (fun b => b.hash) := hhash
    simp [get_calculation, this]
  · exact ⟨_, rfl⟩

/-- Witness for C9: an `"ok"` envelope and an `"error"` envelope over records
that differ in every non-`hash` field but share the `hash` sequence. -/
theorem get_calculation_noninterference_witness :
    (get_calculation (.ok ⟨200, some ⟨"ok", "fine", [⟨"0xaa", "1", "10", "t1", "p1"⟩]⟩⟩) =
      get_calculation (.ok ⟨503, some ⟨"error", "down", [⟨"0xaa", "9", "99", "t9", "p9"⟩]⟩⟩)) ∧
    ∃ out, get_calculation
      (.ok ⟨200, some ⟨"ok", "fine", [⟨"0xaa", "1", "10", "t1", "p1"⟩]⟩⟩) = .ok out :=
  get_calculation_noninterference 200 503
    ⟨"ok", "fine", [⟨"0xaa", "1", "10", "t1", "p1"⟩]⟩
    ⟨"error", "down", [⟨"0xaa", "9", "99", "t9", "p9"⟩]⟩ rfl

theorem beBytes_length (n v : Nat) : (beBytes n v).length = n := by
  simp [beBytes]

/-- For a value below `2 ^ 32`, the 32-byte big-endian word is 28 zero bytes
followed by the 4-byte big-endian encoding. -/
theorem beBytes32_split (v : Nat) (hv : v < 2 ^ 32) :
    beBytes 32 v = List.replicate 28 0 ++ beBytes 4 v := by
  have h2832 : (32 : Nat) = 28 + 4 := rfl
  unfold beBytes
  rw [h2832, List.range_add, List.map_append, List.map_map]
  congr 1
  apply List.eq_replicate_of_mem
  intro b hb
  simp only [List.mem_map, List.mem_range] at hb
  obtain ⟨i, hi, rfl⟩ := hb
  have hsh : v >>> (8 * (28 + 4 - 1 - i)) = 0 := by
    rw [Nat.shiftRight_eq_div_pow]
    apply Nat.div_eq_of_lt
    calc v < 2 ^ 32 := hv
      _ ≤ 2 ^ (8 * (28 + 4 - 1 - i)) := by
        apply Nat.pow_le_pow_right (by norm_num)
        omega
  simp [hsh]

/-- C2 (counterexample): at `task_index = 42` and the all-zero 32-byte result
hash, the buffer the pipeline hashes is not 36 bytes long, and the message
hash differs from the Keccak-256 digest of the 36-byte buffer (4-byte
big-endian 42 followed by the 32 hash bytes) the claim describes. -/
theorem msg_hash_not_36_bytes :
    (taskResponseAbiEncode ⟨42, List.replicate 32 0⟩).length ≠ 36 ∧
    msg_hash_of ⟨42, List.replicate 32 0⟩ ≠
      keccak256 (beBytes 4 42 ++ List.replicate 32 0) := by
  constructor
  · decide
  · decide

/-- C2 (amended): the message hash is the Keccak-256 digest of the standard
ABI encoding of `TaskResponse`, a 64-byte buffer: the task index as a 32-byte
big-endian word — i.e. its 4-byte big-endian encoding left-padded with 28 zero
bytes — followed by the 32-byte result hash. -/
theorem msg_hash_abi_encoding (t : TaskResponse)
    (hlen : t.resultHash.length = 32) (hidx : t.referenceTaskIndex < 2 ^ 32) :
    msg_hash_of t = keccak256 (beBytes 32 t.referenceTaskIndex ++ t.resultHash) ∧
    (taskResponseAbiEncode t).length = 64 ∧
    beBytes 32 t.referenceTaskIndex =
      List.replicate 28 0 ++ beBytes 4 t.referenceTaskIndex := by
  refine ⟨?_, ?_, beBytes32_split _ hidx⟩
  · simp only [msg_hash_of, taskResponseAbiEncode, Nat.mod_eq_of_lt hidx]
  · simp [taskResponseAbiEncode, beBytes_length, hlen]

/-- Witness for C2 (amended) at `task_index = 42` and the all-zero hash. -/
theorem msg_hash_abi_encoding_witness :
    msg_hash_of ⟨42, List.replicate 32 0⟩ =
      keccak256 (beBytes 32 42 ++ List.replicate 32 0) ∧
    (taskResponseAbiEncode ⟨42, List.replicate 32 0⟩).length = 64 ∧
    beBytes 32 42 = List.replicate 28 0 ++ beBytes 4 42 :=
  msg_hash_abi_encoding ⟨42, List.replicate 32 0⟩ (by simp) (by norm_num)

/-- C6: the operator id is the Keccak-256 digest of the concatenated
big-endian byte representations (`num_bigint::BigUint::to_bytes_be`) of the
public key's affine x then y coordinates, and is always a 32-byte value — the
derivation is a total function of the key pair. -/
theorem operator_id_from_key_spec (key : BlsKeyPair) :
    operator_id_from_key key =
      keccak256 (to_bytes_be key.public_key.g1.x ++ to_bytes_be key.public_key.g1.y) ∧
    (operator_id_from_key key).length = 32 :=
  ⟨rfl, keccak256_length _⟩

/-- C3 (code evaluated at the failing input): with the API fetch succeeding
but `first_local` reporting no local BLS key, `calculate_task` panics
(`.unwrap()` on the `Err`) instead of returning the outcome code 0. -/
theorem calculate_task_missing_key_panics :
    calculate_task ⟨.ok ⟨200, some ⟨"ok", "m", []⟩⟩, .error .err, .ok none,
        .error .err, .error .err⟩ 0 [] 0 0 = .panics ∧
    calculate_task ⟨.ok ⟨200, some ⟨"ok", "m", []⟩⟩, .error .err, .ok none,
        .error .err, .error .err⟩ 0 [] 0 0 ≠ .returns (.ok 0) := by
  constructor
  · rfl
  · intro h
    simp [calculate_task, get_calculation] at h

/-- C4: every listed failure (fetch error; exposed secret missing or keystore
error; key-pair construction failure; submission failure) makes
`calculate_task` return `Ok(0)`; it returns `Ok(1)` exactly when the fetch,
the keystore lookup and exposure, the key-pair construction and the
submission all succeed; and every returned value is `Ok(0)` or `Ok(1)` — the
`Infallible` error side is never produced. -/
theorem calculate_task_outcome_collapsing (env : JobEnv) (tcb : Nat)
    (qn : List Nat) (qtp ti : Nat) :
    (∀ v, calculate_task env tcb qn qtp ti = .returns v → v = .ok 0 ∨ v = .ok 1) ∧
    (∀ e, get_calculation env.sendResult = .error e →
      calculate_task env tcb qn qtp ti = .returns (.ok 0)) ∧
    (∀ h p, get_calculation env.sendResult = .ok h → env.first_local = .ok p →
      (env.expose_bls_bn254_secret = .ok none ∨
        env.expose_bls_bn254_secret = .error .err) →
      calculate_task env tcb qn qtp ti = .returns (.ok 0)) ∧
    (∀ h p s, get_calculation env.sendResult = .ok h → env.first_local = .ok p →
      env.expose_bls_bn254_secret = .ok (some s) → env.new_key_pair = .error .err →
      calculate_task env tcb qn qtp ti = .returns (.ok 0)) ∧
    (∀ h p s kp, get_calculation env.sendResult = .ok h → env.first_local = .ok p →
      env.expose_bls_bn254_secret = .ok (some s) → env.new_key_pair = .ok kp →
      env.send_signed_task_response = .error .err →
      calculate_task env tcb qn qtp ti = .returns (.ok 0)) ∧
    (calculate_task env tcb qn qtp ti = .returns (.ok 1) ↔
      ((∃ h, get_calculation env.sendResult = .ok h) ∧
       (∃ p, env.first_local = .ok p) ∧
       (∃ s, env.expose_bls_bn254_secret = .ok (some s)) ∧
       (∃ kp, env.new_key_pair = .ok kp) ∧
       env.send_signed_task_response = .ok ())) := by
  obtain ⟨sr, fl, es, nk, ss⟩ := env
  rcases sr with e | resp
  · simp [calculate_task, get_calculation]
  obtain ⟨hs, body⟩ := resp
  rcases body with _ | parsed
  · simp [calculate_task, get_calculation]
  rcases fl with e2 | pub
  · simp [calculate_task, get_calculation]
  rcases es with e3 | osec
  · rcases e3 with _
    simp [calculate_task, get_calculation]
  rcases osec with _ | sec
  · simp [calculate_task, get_calculation]
  rcases nk with e4 | kp
  · rcases e4 with _
    simp [calculate_task, get_calculation]
  rcases ss with e5 | u
  · rcases e5 with _
    simp [calculate_task, get_calculation]
  · simp [calculate_task, get_calculation]

/-- Witness for C4: a fetch failure yields `Ok(0)` and a fully successful run
yields `Ok(1)`, at concrete environments. -/
theorem calculate_task_outcome_collapsing_witness :
    calculate_task ⟨.error .network, .ok ⟨0⟩, .ok (some ⟨"s"⟩), .ok ⟨⟨⟨1, 2⟩⟩⟩,
        .ok ()⟩ 0 [] 0 7 = .returns (.ok 0) ∧
    calculate_task ⟨.ok ⟨200, some ⟨"ok", "m", []⟩⟩, .ok ⟨0⟩, .ok (some ⟨"s"⟩),
        .ok ⟨⟨⟨1, 2⟩⟩⟩, .ok ()⟩ 0 [] 0 7 = .returns (.ok 1) :=
  ⟨(calculate_task_outcome_collapsing ⟨.error .network, .ok ⟨0⟩, .ok (some ⟨"s"⟩),
      .ok ⟨⟨⟨1, 2⟩⟩⟩, .ok ()⟩ 0 [] 0 7).2.1 .network rfl,
   (calculate_task_outcome_collapsing ⟨.ok ⟨200, some ⟨"ok", "m", []⟩⟩, .ok ⟨0⟩,
      .ok (some ⟨"s"⟩), .ok ⟨⟨⟨1, 2⟩⟩⟩, .ok ()⟩ 0 [] 0 7).2.2.2.2.2.mpr
     ⟨⟨_, rfl⟩, ⟨_, rfl⟩, ⟨_, rfl⟩, ⟨_, rfl⟩, rfl⟩⟩

/-- C10: `convert_event_to_inputs` returns
`Ok(Some((task_created_block, quorum_numbers, quorum_threshold_percentage,
task_index)))` with every component taken unchanged from the event whenever
the event's quorum threshold percentage fits in a `u8`, and panics (the
`try_into().unwrap()`) whenever it exceeds 255. -/
theorem convert_event_to_inputs_spec (e : NewTaskCreated) :
    (e.task.quorumThresholdPercentage ≤ 255 →
      convert_event_to_inputs e = .returns (.ok (some (e.task.taskCreatedBlock,
        e.task.quorumNumbers, e.task.quorumThresholdPercentage, e.taskIndex)))) ∧
    (255 < e.task.quorumThresholdPercentage →
      convert_event_to_inputs e = .panics) := by
  constructor
  · intro h
    simp [convert_event_to_inputs, h]
  · intro h
    simp [convert_event_to_inputs, Nat.not_le.mpr h]

/-- Witness for C10: a threshold of 100 converts, a threshold of 300 panics. -/
theorem convert_event_to_inputs_spec_witness :
    convert_event_to_inputs ⟨7, ⟨3, [1], 100⟩⟩ = .returns (.ok (some (3, [1], 100, 7))) ∧
    convert_event_to_inputs ⟨7, ⟨3, [1], 300⟩⟩ = .panics :=
  ⟨(convert_event_to_inputs_spec ⟨7, ⟨3, [1], 100⟩⟩).1 (by norm_num),
   (convert_event_to_inputs_spec ⟨7, ⟨3, [1], 300⟩⟩).2 (by norm_num)⟩

end ParallelExec
